import Mathlib

/-!
Verification development for the `mps_group` repository: shallow embeddings
of the repository's serverless handlers (`deploy_model`, `upload_dataset`,
`trigger_pipeline_preprocessing`), its two container scripts
(`preprocessing.py`, `train_xgboost.py`), and the declarative data of
`pipeline_stack.py` (the EventBridge deployment rule and the SageMaker
pipeline definition), together with theorems about them.
-/

namespace MpsGroup

/-! ## Preprocessing script, `src/mps_group/processing/preprocessing.py`

The script reads a headerless 5-column CSV, names the columns
`sepal_length, sepal_width, petal_length, petal_width, class`, adds
`sepal_area = sepal_length * sepal_width`,
`petal_area = petal_length * petal_width`, and
`target = df["class"].astype("category").cat.codes`, then writes the frame.
A row of the input table is a record of the four numeric columns and the
`class` column (`cls` here, since `class` is a Lean keyword). -/

structure IrisRow where
  sepal_length : ℚ
  sepal_width : ℚ
  petal_length : ℚ
  petal_width : ℚ
  cls : String
deriving DecidableEq, Repr

/-- A row of the output table written by `preprocessing.py`: the five input
columns followed by the three engineered columns, in the order the script
creates them. -/
structure ProcessedRow where
  sepal_length : ℚ
  sepal_width : ℚ
  petal_length : ℚ
  petal_width : ℚ
  cls : String
  sepal_area : ℚ
  petal_area : ℚ
  target : Int
deriving DecidableEq, Repr

/-- Insertion of an element into a list sorted by the boolean relation `le`. -/
def insertLe {α : Type} (le : α → α → Bool) (x : α) : List α → List α
  | [] => [x]
  | y :: ys => if le x y then x :: y :: ys else y :: insertLe le x ys

/-- Insertion sort by the boolean relation `le`. -/
def insertionSort {α : Type} (le : α → α → Bool) : List α → List α
  | [] => []
  | x :: xs => insertLe le x (insertionSort le xs)

/-- The category list of a string column, as pandas
`astype("category")` builds it: the distinct values in sorted order. -/
def pandasCategories (cs : List String) : List String :=
  insertionSort (fun a b => decide (a ≤ b)) cs.dedup

/-- The pandas category code of a value `c` of a string column `cs`:
its index in the sorted list of distinct values. -/
def pandasCatCode (cs : List String) (c : String) : Int :=
  ((pandasCategories cs).indexOf c : Nat)

/-- The dataframe transformation performed by `preprocessing.py` on the
table of rows it read: add `sepal_area`, `petal_area` and the categorical
`target` column. -/
def preprocess (rows : List IrisRow) : List ProcessedRow :=
  let classColumn := rows.map (·.cls)
  rows.map fun r =>
    { sepal_length := r.sepal_length
      sepal_width := r.sepal_width
      petal_length := r.petal_length
      petal_width := r.petal_width
      cls := r.cls
      sepal_area := r.sepal_length * r.sepal_width
      petal_area := r.petal_length * r.petal_width
      target := pandasCatCode classColumn r.cls }

/-- Input path the preprocessing script reads. -/
def preprocessingInputPath : String := "/opt/ml/processing/input/data/iris.csv"

/-- Output file the preprocessing script writes. -/
def preprocessingOutputFile : String := "/opt/ml/processing/output/iris_cleaned.csv"

/-! ## Training script, `src/mps_group/training/train_xgboost.py`

The script loads `/opt/ml/input/data/train/iris_cleaned.csv`, uses
`X = df.drop(["target", "class"], axis=1)`, `y = df["target"]`, fits one
`xgb.XGBClassifier(objective='multi:softprob', num_class=3, random_state=42)`
and saves to `/opt/ml/model/model.tar.gz`.  We embed it as the sequence of
actions it performs, parameterized by the columns of the loaded frame. -/

structure XGBClassifierConfig where
  objective : String
  num_class : Nat
  random_state : Nat
deriving DecidableEq, Repr

/-- One action of the training script. -/
inductive TrainAction where
  | loadCsv (path : String)
  | fit (featureCols : List String) (labelCol : String) (cfg : XGBClassifierConfig)
  | saveModel (path : String)
deriving DecidableEq, Repr

/-- `df.drop(["target", "class"], axis=1)`: removes the two named columns;
pandas raises a `KeyError` when either is absent. -/
def dropTargetAndClass (cols : List String) : Except String (List String) :=
  if "target" ∈ cols ∧ "class" ∈ cols then
    .ok (cols.filter fun c => c ≠ "target" ∧ c ≠ "class")
  else
    .error "KeyError: labels not found in axis"

/-- The action sequence of `train_xgboost.py`, given the columns of the
loaded dataframe (an error of `drop` propagates and nothing is fitted). -/
def trainScript (cols : List String) : Except String (List TrainAction) := do
  let featureCols ← dropTargetAndClass cols
  .ok [TrainAction.loadCsv "/opt/ml/input/data/train/iris_cleaned.csv",
       TrainAction.fit featureCols "target"
         { objective := "multi:softprob", num_class := 3, random_state := 42 },
       TrainAction.saveModel "/opt/ml/model/model.tar.gz"]

/-- The column list of the table `preprocessing.py` writes (and the training
script loads). -/
def preprocessedColumns : List String :=
  ["sepal_length", "sepal_width", "petal_length", "petal_width", "class",
   "sepal_area", "petal_area", "target"]

/-! ## Upload handler, `src/mps_group/lambda/upload_dataset/upload_dataset.py`

`handler(event, context)` returns `{"Status": "SUCCESS"}` at once when
`event.get("RequestType") == "Delete"`; otherwise it reads three
environment variables, downloads `DATASET_URL`, raises when the HTTP
status is not 200, uploads the bytes to `s3://BUCKET_NAME/DATASET_KEY`,
and wraps the whole block in `try/except Exception` returning a FAILED
record.  External behaviour (the network and S3) is an oracle; the side
effects performed are returned as a call trace. -/

structure UploadEnv where
  DATASET_URL : Option String
  BUCKET_NAME : Option String
  DATASET_KEY : Option String
deriving DecidableEq, Repr

structure HttpResponse where
  status : Nat
  content : List Nat
deriving DecidableEq, Repr

/-- Outcomes of the two external calls: `.error` in `urlopenResult` is an
exception raised by `urllib.request.urlopen`, `some msg` in `putObjectErr`
an exception raised by `s3.put_object`. -/
structure UploadOracle where
  urlopenResult : Except String HttpResponse
  putObjectErr : Option String
deriving Repr

inductive UploadCall where
  | urlopen (url : String)
  | putObject (bucket : String) (key : String) (body : List Nat) (contentType : String)
deriving DecidableEq, Repr

/-- The dict returned by the upload handler (`None` fields are keys absent
from the returned dict). -/
structure UploadResult where
  Status : String
  PhysicalResourceId : Option String
  Reason : Option String
  DataMessage : Option String
deriving DecidableEq, Repr

/-- The CloudFormation custom-resource event as the handler consumes it:
only `event.get("RequestType")` is read. -/
structure CfnEvent where
  RequestType : Option String
deriving DecidableEq, Repr

/-- Shallow embedding of `upload_dataset.handler`.  Returns the handler's
return value together with the external calls it performed, in order. -/
def uploadHandler (event : CfnEvent) (env : UploadEnv) (o : UploadOracle) :
    UploadResult × List UploadCall :=
  if event.RequestType = some "Delete" then
    ({ Status := "SUCCESS", PhysicalResourceId := none, Reason := none,
       DataMessage := none }, [])
  else
    match env.DATASET_URL, env.BUCKET_NAME, env.DATASET_KEY with
    | some datasetUrl, some bucketName, some objectKey =>
      let calls := [UploadCall.urlopen datasetUrl]
      match o.urlopenResult with
      | .error e =>
        ({ Status := "FAILED", PhysicalResourceId := some "upload-failed",
           Reason := some e, DataMessage := none }, calls)
      | .ok resp =>
        if resp.status ≠ 200 then
          ({ Status := "FAILED", PhysicalResourceId := some "upload-failed",
             Reason := some ("HTTP " ++ toString resp.status ++ ": Failed to download dataset"),
             DataMessage := none }, calls)
        else
          let calls := calls ++
            [UploadCall.putObject bucketName objectKey resp.content "text/csv"]
          match o.putObjectErr with
          | some e =>
            ({ Status := "FAILED", PhysicalResourceId := some "upload-failed",
               Reason := some e, DataMessage := none }, calls)
          | none =>
            ({ Status := "SUCCESS", PhysicalResourceId := some objectKey,
               Reason := none,
               DataMessage := some ("Dataset uploaded to s3://" ++ bucketName ++ "/" ++ objectKey) },
             calls)
    | none, _, _ =>
      ({ Status := "FAILED", PhysicalResourceId := some "upload-failed",
         Reason := some "KeyError: DATASET_URL", DataMessage := none }, [])
    | _, none, _ =>
      ({ Status := "FAILED", PhysicalResourceId := some "upload-failed",
         Reason := some "KeyError: BUCKET_NAME", DataMessage := none }, [])
    | _, _, none =>
      ({ Status := "FAILED", PhysicalResourceId := some "upload-failed",
         Reason := some "KeyError: DATASET_KEY", DataMessage := none }, [])

/-! ## Trigger handler,
`src/mps_group/lambda/trigger_pipeline_preprocessing/trigger_pipeline_preprocessing.py`

The handler has no exception guard: a missing environment variable raises
`KeyError` before any call, and an exception from
`start_pipeline_execution` propagates after the call was made.  The result
is `Except` (the raised exception, or the returned dict as an association
list) paired with the trace of `StartPipelineExecution` calls. -/

structure TriggerEnv where
  AWS_REGION : Option String
  PIPELINE_NAME : Option String
  INPUT_DATA_URL : Option String
deriving DecidableEq, Repr

structure StartPipelineCall where
  PipelineName : String
  PipelineParameters : List (String × String)
deriving DecidableEq, Repr

/-- Shallow embedding of `trigger_pipeline_preprocessing.handler`.
`startResult` is the service's response to `start_pipeline_execution`:
an exception, or the `PipelineExecutionArn` of the started execution. -/
def triggerHandler (env : TriggerEnv) (startResult : Except String String) :
    Except String (List (String × String)) × List StartPipelineCall :=
  match env.AWS_REGION, env.PIPELINE_NAME, env.INPUT_DATA_URL with
  | none, _, _ => (.error "KeyError: AWS_REGION", [])
  | some _, none, _ => (.error "KeyError: PIPELINE_NAME", [])
  | some _, some _, none => (.error "KeyError: INPUT_DATA_URL", [])
  | some _, some pipelineName, some inputDataUrl =>
    let call : StartPipelineCall :=
      { PipelineName := pipelineName,
        PipelineParameters := [("InputDataUrl", inputDataUrl)] }
    match startResult with
    | .error e => (.error e, [call])
    | .ok arn => (.ok [("PipelineExecutionArn", arn)], [call])

/-! ## Deploy handler, `src/mps_group/lambda/deploy_model/deploy_model.py`

The handler body is one `try/except Exception` block.  It reads four
environment variables (`SAGEMAKER_EXECUTION_ROLE_ARN` via `.get`, the other
three raising `KeyError` when absent), lists the model packages of the
group filtered to `Approved`, sorted by `CreationTime` descending with
`MaxResults=1`, returns 404 when none, else creates a model for the found
package, runs `cleanup_existing_resources`, creates the endpoint config
and the endpoint, and returns 202; any exception yields 500.

Exceptions of the external service carry a flag saying whether they are a
`botocore` `ClientError` (the only class `cleanup_existing_resources`
catches; a waiter failure is a `WaiterError`, not a `ClientError`). -/

structure SmError where
  clientError : Bool
  msg : String
deriving DecidableEq, Repr

structure ModelPackage where
  ModelPackageArn : String
  ModelApprovalStatus : String
  CreationTime : Nat
deriving DecidableEq, Repr

inductive EndpointStatus where
  | inService
  | deleting
  | absent
deriving DecidableEq, Repr

/-- The service-side state the handler interacts with: the model-package
registry of the configured group, and whether an endpoint / endpoint
config with the configured names exists from an earlier deployment. -/
structure DeployWorld where
  registry : List ModelPackage
  endpointStatus : EndpointStatus
  endpointConfigExists : Bool
deriving DecidableEq, Repr

structure DeployEnv where
  MODEL_PACKAGE_GROUP_NAME : Option String
  ENDPOINT_NAME : Option String
  ENDPOINT_CONFIG_NAME : Option String
  SAGEMAKER_EXECUTION_ROLE_ARN : Option String
deriving DecidableEq, Repr

/-- Fault injection for each external call (`some e` makes the call raise
`e` instead of following the world semantics), the outcome of
`get_execution_role`, the value of `int(time.time())`, and the ARN the
service assigns to the created endpoint. -/
structure DeployOracle where
  listErr : Option SmError
  createModelErr : Option SmError
  describeEndpointErr : Option SmError
  deleteEndpointErr : Option SmError
  waiterErr : Option SmError
  describeConfigErr : Option SmError
  deleteConfigErr : Option SmError
  createConfigErr : Option SmError
  createEndpointErr : Option SmError
  roleLookupResult : Except SmError String
  timestamp : Nat
  endpointArn : String
deriving Repr

inductive SmCall where
  | listModelPackages (group : String)
  | createModel (modelName : String) (modelPackageArn : String) (roleArn : String)
  | describeEndpoint (name : String)
  | deleteEndpoint (name : String)
  | waitEndpointDeleted (name : String)
  | describeEndpointConfig (name : String)
  | deleteEndpointConfig (name : String)
  | createEndpointConfig (name : String) (modelName : String)
  | createEndpoint (name : String) (configName : String)
deriving DecidableEq, Repr

/-- A JSON body as produced by `json.dumps`: either a JSON string or an
object of string fields. -/
inductive JBody where
  | str (s : String)
  | obj (fields : List (String × String))
deriving DecidableEq, Repr

structure DeployResult where
  statusCode : Nat
  body : JBody
deriving DecidableEq, Repr

/-- The `list_model_packages` service call as the handler issues it:
filter the group's registry to `ModelApprovalStatus='Approved'`, sort by
`CreationTime` in `Descending` order, return at most `MaxResults=1`
summaries. -/
def listLatestApproved (registry : List ModelPackage) : List ModelPackage :=
  ((insertionSort (fun a b => decide (b.CreationTime ≤ a.CreationTime))
      (registry.filter fun p => decide (p.ModelApprovalStatus = "Approved"))).take 1)

def err500 (e : SmError) : DeployResult :=
  { statusCode := 500, body := .str ("Error: " ++ e.msg) }

/-- `execution_role_arn = os.environ.get('SAGEMAKER_EXECUTION_ROLE_ARN')`
followed by `if not execution_role_arn: execution_role_arn =
get_execution_role()`: the environment value when set and non-empty,
otherwise the outcome of `get_execution_role()` (whose own exception, from
`sts.get_caller_identity`, propagates to the handler's outer catch). -/
def resolveRole (roleEnv : Option String) (o : DeployOracle) : Except SmError String :=
  match roleEnv with
  | some r => if r = "" then o.roleLookupResult else .ok r
  | none => o.roleLookupResult

/-- First `try` block of `cleanup_existing_resources`:
`describe_endpoint`; `delete_endpoint`; wait for `endpoint_deleted`;
`except ClientError: pass`.  `describe_endpoint` on an absent endpoint
raises a `ValidationException`, a `ClientError`.  A non-`ClientError`
exception escapes the block.  Returns the outcome with the world after the
block, and the trace of calls each paired with the world right before it. -/
def cleanupEndpointBlock (o : DeployOracle) (endpointName : String) (w : DeployWorld) :
    Except SmError DeployWorld × List (SmCall × DeployWorld) :=
  let tr0 := [(SmCall.describeEndpoint endpointName, w)]
  let describeOutcome : Except SmError Unit :=
    match o.describeEndpointErr with
    | some e => .error e
    | none =>
      if w.endpointStatus = EndpointStatus.absent then
        .error { clientError := true, msg := "ValidationException: Could not find endpoint" }
      else .ok ()
  match describeOutcome with
  | .error e => (if e.clientError then .ok w else .error e, tr0)
  | .ok _ =>
    let tr1 := tr0 ++ [(SmCall.deleteEndpoint endpointName, w)]
    match o.deleteEndpointErr with
    | some e => (if e.clientError then .ok w else .error e, tr1)
    | none =>
      let w1 : DeployWorld := { w with endpointStatus := EndpointStatus.deleting }
      let tr2 := tr1 ++ [(SmCall.waitEndpointDeleted endpointName, w1)]
      match o.waiterErr with
      | some e => (if e.clientError then .ok w1 else .error e, tr2)
      | none =>
        (.ok { w1 with endpointStatus := EndpointStatus.absent }, tr2)

/-- Second `try` block of `cleanup_existing_resources`:
`describe_endpoint_config`; `delete_endpoint_config`;
`except ClientError: pass`. -/
def cleanupConfigBlock (o : DeployOracle) (endpointConfigName : String) (w : DeployWorld) :
    Except SmError DeployWorld × List (SmCall × DeployWorld) :=
  let tr0 := [(SmCall.describeEndpointConfig endpointConfigName, w)]
  let describeOutcome : Except SmError Unit :=
    match o.describeConfigErr with
    | some e => .error e
    | none =>
      if w.endpointConfigExists then .ok ()
      else .error { clientError := true,
                    msg := "ValidationException: Could not find endpoint configuration" }
  match describeOutcome with
  | .error e => (if e.clientError then .ok w else .error e, tr0)
  | .ok _ =>
    let tr1 := tr0 ++ [(SmCall.deleteEndpointConfig endpointConfigName, w)]
    match o.deleteConfigErr with
    | some e => (if e.clientError then .ok w else .error e, tr1)
    | none => (.ok { w with endpointConfigExists := false }, tr1)

/-- `cleanup_existing_resources(sagemaker, endpoint_name, endpoint_config_name)`:
the endpoint block, then the config block. -/
def cleanup_existing_resources (o : DeployOracle)
    (endpointName endpointConfigName : String) (w : DeployWorld) :
    Except SmError DeployWorld × List (SmCall × DeployWorld) :=
  match cleanupEndpointBlock o endpointName w with
  | (.error e, tr) => (.error e, tr)
  | (.ok w1, tr) =>
    match cleanupConfigBlock o endpointConfigName w1 with
    | (res, tr2) => (res, tr ++ tr2)

/-- Shallow embedding of `deploy_model.handler`: the returned dict and the
trace of service calls, each paired with the world right before it. -/
def deployHandler (env : DeployEnv) (o : DeployOracle) (w : DeployWorld) :
    DeployResult × List (SmCall × DeployWorld) :=
  match env.MODEL_PACKAGE_GROUP_NAME, env.ENDPOINT_NAME, env.ENDPOINT_CONFIG_NAME with
  | none, _, _ =>
    (err500 { clientError := false, msg := "KeyError: MODEL_PACKAGE_GROUP_NAME" }, [])
  | some _, none, _ =>
    (err500 { clientError := false, msg := "KeyError: ENDPOINT_NAME" }, [])
  | some _, some _, none =>
    (err500 { clientError := false, msg := "KeyError: ENDPOINT_CONFIG_NAME" }, [])
  | some groupName, some endpointName, some endpointConfigName =>
    let tr0 := [(SmCall.listModelPackages groupName, w)]
    match o.listErr with
    | some e => (err500 e, tr0)
    | none =>
      match listLatestApproved w.registry with
      | [] => ({ statusCode := 404, body := .str "No approved model packages found" }, tr0)
      | pkg :: _ =>
        let modelName := "iris-model-" ++ toString o.timestamp
        match resolveRole env.SAGEMAKER_EXECUTION_ROLE_ARN o with
        | .error e => (err500 e, tr0)
        | .ok roleArn =>
          let tr1 := tr0 ++ [(SmCall.createModel modelName pkg.ModelPackageArn roleArn, w)]
          match o.createModelErr with
          | some e => (err500 e, tr1)
          | none =>
            match cleanup_existing_resources o endpointName endpointConfigName w with
            | (.error e, trC) => (err500 e, tr1 ++ trC)
            | (.ok w1, trC) =>
              let tr2 := tr1 ++ trC ++
                [(SmCall.createEndpointConfig endpointConfigName modelName, w1)]
              match o.createConfigErr with
              | some e => (err500 e, tr2)
              | none =>
                let w2 : DeployWorld := { w1 with endpointConfigExists := true }
                let tr3 := tr2 ++ [(SmCall.createEndpoint endpointName endpointConfigName, w2)]
                match o.createEndpointErr with
                | some e => (err500 e, tr3)
                | none =>
                  ({ statusCode := 202,
                     body := .obj [
                       ("message", "Endpoint creation initiated successfully"),
                       ("status", "Creating"),
                       ("endpointName", endpointName),
                       ("endpointArn", o.endpointArn),
                       ("estimatedReadyTime", "10-15 minutes")] },
                   tr3)

/-! ## Stack declarations, `src/mps_group/pipeline_stack.py`

The stack is declarative; we embed the data the claims are about: the
model package group name, the deploy lambda's wiring (handler and
environment), the EventBridge rule `ModelRegistrationCompletionRule` with
its pattern and target, the custom resource `DeployLatestModelResource`,
and the SageMaker pipeline definition with its three steps.  Values that
are resolved at synthesis time from configuration or assets
(`bucket_name`, `dataset_key`, asset URIs, the execution role ARN) are
parameters. -/

def model_package_group_name : String := "IrisModelPackageGroup"

/-- The `environment` dict of the `DeployModelLambda` function, as the
deploy handler reads it (`SAGEMAKER_FRAMEWORK` is set too but never read
by the handler). -/
def deploy_lambda_environment (executionRoleArn : String) : DeployEnv :=
  { MODEL_PACKAGE_GROUP_NAME := some model_package_group_name
    ENDPOINT_NAME := some "iris-classification-endpoint"
    ENDPOINT_CONFIG_NAME := some "iris-classification-config"
    SAGEMAKER_EXECUTION_ROLE_ARN := some executionRoleArn }

def deploy_lambda_handler_name : String := "deploy_model.handler"

/-- The `environment` dict of the `TriggerPipelineLambda` function. -/
def trigger_lambda_environment (bucketName datasetKey : String) : TriggerEnv :=
  { AWS_REGION := some "us-east-2"
    PIPELINE_NAME := some "IrisPipelineV2"
    INPUT_DATA_URL := some ("s3://" ++ bucketName ++ "/" ++ datasetKey) }

/-- The event pattern of an EventBridge rule over the fields this stack's
rule constrains. -/
structure EventPatternModel where
  source : List String
  detailType : List String
  detailModelPackageGroupName : List String
  detailModelApprovalStatus : List String
deriving DecidableEq, Repr

structure RuleModel where
  pattern : EventPatternModel
  targets : List String
deriving DecidableEq, Repr

/-- The rule `ModelRegistrationCompletionRule` with its single target, the
`DeployModelLambda` function. -/
def deployment_rule : RuleModel :=
  { pattern :=
      { source := ["aws.sagemaker"]
        detailType := ["SageMaker Model Package State Change"]
        detailModelPackageGroupName := [model_package_group_name]
        detailModelApprovalStatus := ["Approved"] }
    targets := ["DeployModelLambda"] }

/-- A SageMaker model-package state-change event, restricted to the fields
the rule's pattern constrains. -/
structure SmPackageEvent where
  source : String
  detailType : String
  ModelPackageGroupName : String
  ModelApprovalStatus : String
deriving DecidableEq, Repr

/-- EventBridge matching semantics for such a pattern: every constrained
field's list must contain the event's value. -/
def matchesPattern (p : EventPatternModel) (e : SmPackageEvent) : Bool :=
  p.source.contains e.source && p.detailType.contains e.detailType
    && p.detailModelPackageGroupName.contains e.ModelPackageGroupName
    && p.detailModelApprovalStatus.contains e.ModelApprovalStatus

/-- The `DeployLatestModelResource` custom resource: on stack creation it
invokes the `DeployModelLambda` function (`InvocationType` `Event`). -/
structure CustomResourceModel where
  onCreateService : String
  onCreateAction : String
  functionTarget : String
  invocationType : String
deriving DecidableEq, Repr

def DeployLatestModelResource : CustomResourceModel :=
  { onCreateService := "Lambda"
    onCreateAction := "invoke"
    functionTarget := "DeployModelLambda"
    invocationType := "Event" }

/-- A value in the pipeline-definition JSON that is either a literal
string or a `{"Get": path}` pipeline reference. -/
inductive JsonRef where
  | lit (s : String)
  | get (path : String)
deriving DecidableEq, Repr

structure TrainingChannel where
  ChannelName : String
  S3Uri : JsonRef
deriving DecidableEq, Repr

/-- The step arguments the claims are about, per step type. -/
inductive StepArgs where
  | processing (inputDataS3Uri : JsonRef) (outputS3Uri : String)
  | training (channels : List TrainingChannel) (outputS3Path : String)
  | registerModel (groupName : String) (approvalStatus : String) (modelDataUrl : JsonRef)
deriving DecidableEq, Repr

structure PipelineStep where
  Name : String
  stepType : String
  DependsOn : List String
  args : StepArgs
deriving DecidableEq, Repr

/-- `preprocessing_step`: a Processing step whose data input is the
`InputDataUrl` pipeline parameter and whose output `output-1` lands at
`s3://{bucket_name}/iris/output`. -/
def preprocessing_step (bucketName : String) : PipelineStep :=
  { Name := "IrisPreprocessing"
    stepType := "Processing"
    DependsOn := []
    args := .processing (.get "Parameters.InputDataUrl")
      ("s3://" ++ bucketName ++ "/iris/output") }

/-- `training_step`: a Training step depending on `IrisPreprocessing`,
whose `train` channel reads the preprocessing step's `output-1` output
location and whose `code` channel reads the training-script asset. -/
def training_step (bucketName trainAssetUri : String) : PipelineStep :=
  { Name := "IrisTraining"
    stepType := "Training"
    DependsOn := ["IrisPreprocessing"]
    args := .training
      [{ ChannelName := "code", S3Uri := .lit trainAssetUri },
       { ChannelName := "train",
         S3Uri := .get
           "Steps.IrisPreprocessing.ProcessingOutputConfig.Outputs[\x27output-1\x27].S3Output.S3Uri" }]
      ("s3://" ++ bucketName ++ "/iris/model") }

/-- `register_model_step`: a RegisterModel step registering the training
step's model artifact in `IrisModelPackageGroup` with approval status
`Approved`. -/
def register_model_step : PipelineStep :=
  { Name := "RegisterTrainedModel"
    stepType := "RegisterModel"
    DependsOn := []
    args := .registerModel model_package_group_name "Approved"
      (.get "Steps.IrisTraining.ModelArtifacts.S3ModelArtifacts") }

structure PipelineParameter where
  Name : String
  paramType : String
  DefaultValue : String
deriving DecidableEq, Repr

structure PipelineDefinition where
  Version : String
  Parameters : List PipelineParameter
  Steps : List PipelineStep
deriving DecidableEq, Repr

/-- `pipeline_definition` as the stack builds it. -/
def pipeline_definition (bucketName datasetKey trainAssetUri : String) :
    PipelineDefinition :=
  { Version := "2020-12-01"
    Parameters := [{ Name := "InputDataUrl", paramType := "String",
                     DefaultValue := "s3://" ++ bucketName ++ "/" ++ datasetKey }]
    Steps := [preprocessing_step bucketName,
              training_step bucketName trainAssetUri,
              register_model_step] }

/-! ## Sample data used by witness theorems -/

/-- A small concrete input table for the preprocessing script. -/
def sampleIrisRows : List IrisRow :=
  [{ sepal_length := 5, sepal_width := 3, petal_length := 1, petal_width := 2,
     cls := "Iris-setosa" },
   { sepal_length := 7, sepal_width := 3, petal_length := 4, petal_width := 1,
     cls := "Iris-versicolor" },
   { sepal_length := 4, sepal_width := 3, petal_length := 1, petal_width := 2,
     cls := "Iris-setosa" }]

def defaultProcessedRow : ProcessedRow :=
  { sepal_length := 0, sepal_width := 0, petal_length := 0, petal_width := 0,
    cls := "", sepal_area := 0, petal_area := 0, target := 0 }

/-- A concrete registry with two approved packages and one pending one. -/
def sampleRegistry : List ModelPackage :=
  [{ ModelPackageArn := "arn:pkg/1", ModelApprovalStatus := "Approved", CreationTime := 10 },
   { ModelPackageArn := "arn:pkg/2", ModelApprovalStatus := "PendingManualApproval",
     CreationTime := 30 },
   { ModelPackageArn := "arn:pkg/3", ModelApprovalStatus := "Approved", CreationTime := 20 }]

/-- A fault-free oracle for the deploy handler. -/
def sampleDeployOracle : DeployOracle :=
  { listErr := none, createModelErr := none, describeEndpointErr := none,
    deleteEndpointErr := none, waiterErr := none, describeConfigErr := none,
    deleteConfigErr := none, createConfigErr := none, createEndpointErr := none,
    roleLookupResult := .ok "arn:aws:iam::123456789012:role/looked-up",
    timestamp := 1700000000, endpointArn := "arn:aws:sagemaker:ep/iris" }

def sampleDeployWorld : DeployWorld :=
  { registry := sampleRegistry, endpointStatus := EndpointStatus.inService,
    endpointConfigExists := true }

def defaultSmEntry : SmCall × DeployWorld :=
  (SmCall.listModelPackages "",
   { registry := [], endpointStatus := EndpointStatus.absent,
     endpointConfigExists := false })

/-! ## Helper lemmas about the insertion sort used to model
`SortBy='CreationTime', SortOrder='Descending'` -/

theorem mem_insertLe {α : Type} {le : α → α → Bool} {x y : α} {l : List α} :
    y ∈ insertLe le x l ↔ y = x ∨ y ∈ l := by
  induction l with
  | nil => simp [insertLe]
  | cons z zs ih =>
    by_cases h : le x z = true
    · simp [insertLe, h]
    · simp only [insertLe, if_neg h, List.mem_cons, ih]
      tauto

theorem mem_insertionSort {α : Type} {le : α → α → Bool} {y : α} {l : List α} :
    y ∈ insertionSort le l ↔ y ∈ l := by
  induction l with
  | nil => simp [insertionSort]
  | cons z zs ih => simp [insertionSort, mem_insertLe, ih]

theorem insertLe_ne_nil {α : Type} {le : α → α → Bool} {x : α} {l : List α} :
    insertLe le x l ≠ [] := by
  cases l with
  | nil => simp [insertLe]
  | cons z zs =>
    by_cases h : le x z = true <;> simp [insertLe, h]

theorem insertionSort_eq_nil_iff {α : Type} {le : α → α → Bool} {l : List α} :
    insertionSort le l = [] ↔ l = [] := by
  cases l with
  | nil => simp [insertionSort]
  | cons z zs => simp [insertionSort, insertLe_ne_nil]

theorem pairwise_insertLe {α : Type} {le : α → α → Bool}
    (htot : ∀ a b, le a b = true ∨ le b a = true)
    (htrans : ∀ a b c, le a b = true → le b c = true → le a c = true)
    {x : α} {l : List α} (hl : l.Pairwise (fun a b => le a b = true)) :
    (insertLe le x l).Pairwise (fun a b => le a b = true) := by
  induction l with
  | nil => simp [insertLe]
  | cons z zs ih =>
    rcases List.pairwise_cons.mp hl with ⟨hz, hzs⟩
    by_cases h : le x z = true
    · rw [show insertLe le x (z :: zs) = x :: z :: zs by simp [insertLe, h]]
      refine List.pairwise_cons.mpr ⟨?_, hl⟩
      intro b hb
      rcases List.mem_cons.mp hb with hb | hb
      · exact hb ▸ h
      · exact htrans x z b h (hz b hb)
    · rw [show insertLe le x (z :: zs) = z :: insertLe le x zs by simp [insertLe, h]]
      refine List.pairwise_cons.mpr ⟨?_, ih hzs⟩
      intro b hb
      rcases mem_insertLe.mp hb with hb | hb
      · subst hb
        rcases htot b z with hx | hx
        · exact absurd hx h
        · exact hx
      · exact hz b hb

theorem pairwise_insertionSort {α : Type} {le : α → α → Bool}
    (htot : ∀ a b, le a b = true ∨ le b a = true)
    (htrans : ∀ a b c, le a b = true → le b c = true → le a c = true)
    (l : List α) :
    (insertionSort le l).Pairwise (fun a b => le a b = true) := by
  induction l with
  | nil => simp [insertionSort]
  | cons z zs ih => exact pairwise_insertLe htot htrans ih

/-- Boolean relation used by `listLatestApproved`: `a` no older than `b`. -/
theorem descLe_total (a b : ModelPackage) :
    (decide (b.CreationTime ≤ a.CreationTime) = true) ∨
    (decide (a.CreationTime ≤ b.CreationTime) = true) := by
  simp [Nat.le_total]

/-- If `listLatestApproved` returns a package, it is an approved member of
the registry and no approved member is newer. -/
theorem listLatestApproved_max {registry : List ModelPackage} {pkg : ModelPackage}
    {rest : List ModelPackage}
    (h : listLatestApproved registry = pkg :: rest) :
    pkg.ModelApprovalStatus = "Approved" ∧ pkg ∈ registry ∧
    ∀ q ∈ registry, q.ModelApprovalStatus = "Approved" →
      q.CreationTime ≤ pkg.CreationTime := by
  have hsorted := @pairwise_insertionSort ModelPackage
    (fun a b : ModelPackage => decide (b.CreationTime ≤ a.CreationTime))
    descLe_total
    (fun a b c hab hbc => by
      simp only [decide_eq_true_eq] at hab hbc ⊢
      exact hbc.trans hab)
    (registry.filter fun p => decide (p.ModelApprovalStatus = "Approved"))
  rcases hhead : insertionSort
      (fun a b : ModelPackage => decide (b.CreationTime ≤ a.CreationTime))
      (registry.filter fun p => decide (p.ModelApprovalStatus = "Approved"))
    with _ | ⟨p0, ps⟩
  · rw [listLatestApproved, hhead] at h
    simp at h
  · rw [listLatestApproved, hhead] at h
    simp only [List.take_succ_cons, List.take_zero, List.cons.injEq] at h
    obtain ⟨hp0, -⟩ := h
    rw [hp0] at hhead
    have hin : pkg ∈ insertionSort
        (fun a b : ModelPackage => decide (b.CreationTime ≤ a.CreationTime))
        (registry.filter fun p => decide (p.ModelApprovalStatus = "Approved")) := by
      rw [hhead]
      exact List.mem_cons_self _ _
    have hmemfilter : pkg ∈ registry.filter
        fun p => decide (p.ModelApprovalStatus = "Approved") :=
      mem_insertionSort.mp hin
    have happroved : pkg.ModelApprovalStatus = "Approved" ∧ pkg ∈ registry := by
      have := List.mem_filter.mp hmemfilter
      exact ⟨by simpa using this.2, this.1⟩
    refine ⟨happroved.1, happroved.2, ?_⟩
    intro q hq hqapp
    have hqfilter : q ∈ registry.filter
        fun p => decide (p.ModelApprovalStatus = "Approved") :=
      List.mem_filter.mpr ⟨hq, by simpa using hqapp⟩
    have hqsorted : q ∈ (pkg :: ps) := by
      rw [← hhead]
      exact mem_insertionSort.mpr hqfilter
    rcases List.mem_cons.mp hqsorted with hq' | hq'
    · exact hq' ▸ le_refl _
    · rw [hhead] at hsorted
      have := (List.pairwise_cons.mp hsorted).1 q hq'
      simpa using this

/-! ## Claim theorems -/

/-- C2: the stack's rule `ModelRegistrationCompletionRule` matches exactly
the SageMaker model-package state-change events whose group is
`IrisModelPackageGroup` and whose approval status is `Approved`, and its
sole target is the deploy lambda, whose handler is `deploy_model.handler`;
so deployment of the latest approved model is triggered by the registry's
approval-status field. -/
theorem C2_deployment_rule_routes_registry_events :
    (∀ e : SmPackageEvent,
      matchesPattern deployment_rule.pattern e = true ↔
        e.source = "aws.sagemaker" ∧
        e.detailType = "SageMaker Model Package State Change" ∧
        e.ModelPackageGroupName = "IrisModelPackageGroup" ∧
        e.ModelApprovalStatus = "Approved") ∧
    deployment_rule.targets = ["DeployModelLambda"] ∧
    deploy_lambda_handler_name = "deploy_model.handler" := by
  refine ⟨fun e => ?_, rfl, rfl⟩
  simp [matchesPattern, deployment_rule, model_package_group_name, and_assoc]

/-- C6: the pipeline definition declared by the stack has exactly the
three steps iris preprocessing (Processing), training (Training, depending
on the preprocessing step and consuming its `output-1` output location),
and model registration (RegisterModel, registering the training step's
artifact in the model package group). -/
theorem C6_pipeline_definition_three_steps
    (bucketName datasetKey trainAssetUri : String) :
    (pipeline_definition bucketName datasetKey trainAssetUri).Steps =
      [preprocessing_step bucketName, training_step bucketName trainAssetUri,
       register_model_step] ∧
    (preprocessing_step bucketName).Name = "IrisPreprocessing" ∧
    (preprocessing_step bucketName).stepType = "Processing" ∧
    (preprocessing_step bucketName).DependsOn = [] ∧
    (training_step bucketName trainAssetUri).Name = "IrisTraining" ∧
    (training_step bucketName trainAssetUri).stepType = "Training" ∧
    (training_step bucketName trainAssetUri).DependsOn = ["IrisPreprocessing"] ∧
    (training_step bucketName trainAssetUri).args = .training
      [{ ChannelName := "code", S3Uri := .lit trainAssetUri },
       { ChannelName := "train",
         S3Uri := .get
           "Steps.IrisPreprocessing.ProcessingOutputConfig.Outputs[\x27output-1\x27].S3Output.S3Uri" }]
      ("s3://" ++ bucketName ++ "/iris/model") ∧
    register_model_step.Name = "RegisterTrainedModel" ∧
    register_model_step.stepType = "RegisterModel" ∧
    register_model_step.args = .registerModel "IrisModelPackageGroup" "Approved"
      (.get "Steps.IrisTraining.ModelArtifacts.S3ModelArtifacts") :=
  ⟨rfl, rfl, rfl, rfl, rfl, rfl, rfl, rfl, rfl, rfl, rfl⟩

/-- C7: the training script loads the preprocessed dataset, fits exactly
one gradient-boosted tree classifier with objective `multi:softprob`,
`num_class=3` and `random_state=42`, on the features obtained by dropping
the `target` and `class` columns (keeping every other column), with
`target` as label, and saves the model to `/opt/ml/model/model.tar.gz`. -/
theorem C7_trainScript_spec (cols : List String)
    (htarget : "target" ∈ cols) (hcls : "class" ∈ cols) :
    trainScript cols = .ok
      [TrainAction.loadCsv "/opt/ml/input/data/train/iris_cleaned.csv",
       TrainAction.fit (cols.filter fun c => c ≠ "target" ∧ c ≠ "class") "target"
         { objective := "multi:softprob", num_class := 3, random_state := 42 },
       TrainAction.saveModel "/opt/ml/model/model.tar.gz"] ∧
    ∀ c, (c ∈ cols.filter fun c => c ≠ "target" ∧ c ≠ "class") ↔
      (c ∈ cols ∧ c ≠ "target" ∧ c ≠ "class") := by
  constructor
  · simp only [trainScript, dropTargetAndClass, if_pos (And.intro htarget hcls)]
    rfl
  · intro c
    simp [List.mem_filter]

/-- Witness for C7, at the column list of the table the preprocessing
script writes. -/
theorem C7_trainScript_spec_witness :
    ("target" ∈ preprocessedColumns ∧ "class" ∈ preprocessedColumns) ∧
    trainScript preprocessedColumns = .ok
      [TrainAction.loadCsv "/opt/ml/input/data/train/iris_cleaned.csv",
       TrainAction.fit
         ["sepal_length", "sepal_width", "petal_length", "petal_width",
          "sepal_area", "petal_area"] "target"
         { objective := "multi:softprob", num_class := 3, random_state := 42 },
       TrainAction.saveModel "/opt/ml/model/model.tar.gz"] :=
  ⟨⟨by decide, by decide⟩, by
    have h := (C7_trainScript_spec preprocessedColumns (by decide) (by decide)).1
    rw [h]
    rfl⟩

/-- C10: on a `Delete` request the upload handler returns only
`Status = SUCCESS` and performs no external call at all, for every
environment and every oracle. -/
theorem C10_uploadHandler_delete_noop (env : UploadEnv) (o : UploadOracle) :
    uploadHandler { RequestType := some "Delete" } env o =
      ({ Status := "SUCCESS", PhysicalResourceId := none, Reason := none,
         DataMessage := none }, []) := by
  simp [uploadHandler]

/-- C5: with its three environment variables set, the trigger handler
issues exactly one `StartPipelineExecution` call, for the configured
pipeline name, with the single parameter `InputDataUrl` set to the
configured value; and when the service responds with an ARN the handler
returns the one-entry dict `PipelineExecutionArn`. -/
theorem C5_triggerHandler_spec (region pipelineName inputDataUrl : String)
    (startResult : Except String String) :
    (triggerHandler
        { AWS_REGION := some region, PIPELINE_NAME := some pipelineName,
          INPUT_DATA_URL := some inputDataUrl } startResult).2 =
      [{ PipelineName := pipelineName,
         PipelineParameters := [("InputDataUrl", inputDataUrl)] }] ∧
    ∀ arn, startResult = .ok arn →
      (triggerHandler
          { AWS_REGION := some region, PIPELINE_NAME := some pipelineName,
            INPUT_DATA_URL := some inputDataUrl } startResult).1 =
        .ok [("PipelineExecutionArn", arn)] := by
  constructor
  · cases startResult <;> rfl
  · rintro arn rfl
    rfl

/-- Witness for C5, at the environment the stack configures and a concrete
service response. -/
theorem C5_triggerHandler_spec_witness :
    (triggerHandler
        { AWS_REGION := some "us-east-2", PIPELINE_NAME := some "IrisPipelineV2",
          INPUT_DATA_URL := some "s3://bucket/iris/iris.csv" }
        (.ok "arn:aws:sagemaker:exec/1")).2 =
      [{ PipelineName := "IrisPipelineV2",
         PipelineParameters := [("InputDataUrl", "s3://bucket/iris/iris.csv")] }] ∧
    (triggerHandler
        { AWS_REGION := some "us-east-2", PIPELINE_NAME := some "IrisPipelineV2",
          INPUT_DATA_URL := some "s3://bucket/iris/iris.csv" }
        (.ok "arn:aws:sagemaker:exec/1")).1 =
      .ok [("PipelineExecutionArn", "arn:aws:sagemaker:exec/1")] := by
  have h := C5_triggerHandler_spec "us-east-2" "IrisPipelineV2"
    "s3://bucket/iris/iris.csv" (.ok "arn:aws:sagemaker:exec/1")
  exact ⟨h.1, h.2 "arn:aws:sagemaker:exec/1" rfl⟩

/-- C3: the preprocessing output has one row per input row, preserves the
five named input columns, and adds `sepal_area = sepal_length * sepal_width`,
`petal_area = petal_length * petal_width` and the integer `target` equal to
the pandas category code of `class`; rows with equal `class` values get
equal `target` values. -/
theorem C3_preprocess_spec (rows : List IrisRow) :
    (preprocess rows).length = rows.length ∧
    List.Forall₂ (fun (r : IrisRow) (p : ProcessedRow) =>
      p.sepal_length = r.sepal_length ∧ p.sepal_width = r.sepal_width ∧
      p.petal_length = r.petal_length ∧ p.petal_width = r.petal_width ∧
      p.cls = r.cls ∧
      p.sepal_area = r.sepal_length * r.sepal_width ∧
      p.petal_area = r.petal_length * r.petal_width ∧
      p.target = pandasCatCode (rows.map (·.cls)) r.cls)
      rows (preprocess rows) ∧
    (∀ p, p ∈ preprocess rows → ∀ q, q ∈ preprocess rows →
      p.cls = q.cls → p.target = q.target) := by
  refine ⟨by simp [preprocess], ?_, ?_⟩
  · rw [preprocess]
    rw [List.forall₂_map_right_iff]
    rw [List.forall₂_same]
    intro r _
    exact ⟨rfl, rfl, rfl, rfl, rfl, rfl, rfl, rfl⟩
  · intro p hp q hq hcls
    simp only [preprocess, List.mem_map] at hp hq
    obtain ⟨r, -, rfl⟩ := hp
    obtain ⟨r', -, rfl⟩ := hq
    simp only at hcls ⊢
    rw [hcls]

/-- Witness for C3, at a concrete three-row table whose first and third
rows share a class. -/
theorem C3_preprocess_spec_witness :
    (preprocess sampleIrisRows).length = 3 ∧
    ((preprocess sampleIrisRows).getD 0 defaultProcessedRow).cls =
      ((preprocess sampleIrisRows).getD 2 defaultProcessedRow).cls ∧
    ((preprocess sampleIrisRows).getD 0 defaultProcessedRow).target =
      ((preprocess sampleIrisRows).getD 2 defaultProcessedRow).target := by
  have h := C3_preprocess_spec sampleIrisRows
  have hlen : (preprocess sampleIrisRows).length = 3 := h.1.trans (by decide)
  have h0 : (0 : Nat) < (preprocess sampleIrisRows).length := by rw [hlen]; decide
  have h2 : (2 : Nat) < (preprocess sampleIrisRows).length := by rw [hlen]; decide
  have hm0 : (preprocess sampleIrisRows).getD 0 defaultProcessedRow ∈
      preprocess sampleIrisRows := by
    rw [List.getD_eq_getElem _ defaultProcessedRow h0]
    exact List.getElem_mem h0
  have hm2 : (preprocess sampleIrisRows).getD 2 defaultProcessedRow ∈
      preprocess sampleIrisRows := by
    rw [List.getD_eq_getElem _ defaultProcessedRow h2]
    exact List.getElem_mem h2
  exact ⟨hlen, by decide, h.2.2 _ hm0 _ hm2 (by decide)⟩

/-- C4: on any non-Delete invocation the upload handler returns Status
SUCCESS or FAILED (never propagating an exception); it returns SUCCESS
with `PhysicalResourceId` equal to the dataset key exactly when the
download returned HTTP 200 and the S3 write succeeded; each failing step
yields its exact FAILED result carrying the error text as `Reason`: a
missing environment variable the `KeyError` text naming it, a download
exception that exception's text, a non-200 status the
`HTTP {status}: Failed to download dataset` message, and a failed S3
write the write exception's text. -/
theorem C4_uploadHandler_nondelete (event : CfnEvent) (env : UploadEnv)
    (o : UploadOracle) (hrt : event.RequestType ≠ some "Delete") :
    ((uploadHandler event env o).1.Status = "SUCCESS" ∨
     (uploadHandler event env o).1.Status = "FAILED") ∧
    (∀ url bucket key resp,
      env = { DATASET_URL := some url, BUCKET_NAME := some bucket,
              DATASET_KEY := some key } →
      o.urlopenResult = .ok resp → resp.status = 200 → o.putObjectErr = none →
      uploadHandler event env o =
        ({ Status := "SUCCESS", PhysicalResourceId := some key, Reason := none,
           DataMessage := some ("Dataset uploaded to s3://" ++ bucket ++ "/" ++ key) },
         [UploadCall.urlopen url,
          UploadCall.putObject bucket key resp.content "text/csv"])) ∧
    (env.DATASET_URL = none →
      (uploadHandler event env o).1 =
        { Status := "FAILED", PhysicalResourceId := some "upload-failed",
          Reason := some "KeyError: DATASET_URL", DataMessage := none }) ∧
    (env.DATASET_URL ≠ none → env.BUCKET_NAME = none →
      (uploadHandler event env o).1 =
        { Status := "FAILED", PhysicalResourceId := some "upload-failed",
          Reason := some "KeyError: BUCKET_NAME", DataMessage := none }) ∧
    (env.DATASET_URL ≠ none → env.BUCKET_NAME ≠ none → env.DATASET_KEY = none →
      (uploadHandler event env o).1 =
        { Status := "FAILED", PhysicalResourceId := some "upload-failed",
          Reason := some "KeyError: DATASET_KEY", DataMessage := none }) ∧
    (∀ url bucket key e,
      env = { DATASET_URL := some url, BUCKET_NAME := some bucket,
              DATASET_KEY := some key } →
      o.urlopenResult = .error e →
      (uploadHandler event env o).1 =
        { Status := "FAILED", PhysicalResourceId := some "upload-failed",
          Reason := some e, DataMessage := none }) ∧
    (∀ url bucket key resp,
      env = { DATASET_URL := some url, BUCKET_NAME := some bucket,
              DATASET_KEY := some key } →
      o.urlopenResult = .ok resp → resp.status ≠ 200 →
      (uploadHandler event env o).1 =
        { Status := "FAILED", PhysicalResourceId := some "upload-failed",
          Reason := some ("HTTP " ++ toString resp.status ++
            ": Failed to download dataset"),
          DataMessage := none }) ∧
    (∀ url bucket key resp e,
      env = { DATASET_URL := some url, BUCKET_NAME := some bucket,
              DATASET_KEY := some key } →
      o.urlopenResult = .ok resp → resp.status = 200 → o.putObjectErr = some e →
      (uploadHandler event env o).1 =
        { Status := "FAILED", PhysicalResourceId := some "upload-failed",
          Reason := some e, DataMessage := none }) ∧
    (¬ (env.DATASET_URL ≠ none ∧ env.BUCKET_NAME ≠ none ∧ env.DATASET_KEY ≠ none ∧
        (∃ resp, o.urlopenResult = .ok resp ∧ resp.status = 200) ∧
        o.putObjectErr = none) →
      (uploadHandler event env o).1.Status = "FAILED") := by
  obtain ⟨u, b, k⟩ := env
  obtain ⟨ur, pe⟩ := o
  rcases u with - | url
  · simp [uploadHandler, hrt]
  rcases b with - | bucket
  · simp [uploadHandler, hrt]
  rcases k with - | key
  · simp [uploadHandler, hrt]
  rcases ur with e | resp
  · refine ⟨Or.inr (by simp [uploadHandler, hrt]), ?_,
      by simp, by simp, by simp, ?_, ?_, ?_,
      fun _ => by simp [uploadHandler, hrt]⟩
    · intro url' bucket' key' resp' he hresp
      simp at hresp
    · intro url' bucket' key' e' he hresp
      obtain rfl : e = e' := by simpa using hresp
      simp [uploadHandler, hrt]
    · intro url' bucket' key' resp' he hresp
      simp at hresp
    · intro url' bucket' key' resp' e' he hresp
      simp at hresp
  by_cases hs : resp.status = 200
  · rcases pe with - | pErr
    · refine ⟨Or.inl (by simp [uploadHandler, hrt, hs]), ?_,
        by simp, by simp, by simp, ?_, ?_, ?_, ?_⟩
      · intro url' bucket' key' resp' he hresp h200 hput
        obtain ⟨hu, hb, hk⟩ : url = url' ∧ bucket = bucket' ∧ key = key' := by
          simpa [UploadEnv.mk.injEq] using he
        obtain rfl : resp = resp' := by simpa using hresp
        subst hu hb hk
        simp [uploadHandler, hrt, hs]
      · intro url' bucket' key' e' he hresp
        simp at hresp
      · intro url' bucket' key' resp' he hresp h200
        obtain rfl : resp = resp' := by simpa using hresp
        exact absurd hs h200
      · intro url' bucket' key' resp' e' he hresp h200 hput
        simp at hput
      · intro hne
        exact absurd ⟨by simp, by simp, by simp, ⟨resp, rfl, hs⟩, rfl⟩ hne
    · refine ⟨Or.inr (by simp [uploadHandler, hrt, hs]), ?_,
        by simp, by simp, by simp, ?_, ?_, ?_,
        fun _ => by simp [uploadHandler, hrt, hs]⟩
      · intro url' bucket' key' resp' he hresp h200 hput
        simp at hput
      · intro url' bucket' key' e' he hresp
        simp at hresp
      · intro url' bucket' key' resp' he hresp h200
        obtain rfl : resp = resp' := by simpa using hresp
        exact absurd hs h200
      · intro url' bucket' key' resp' e' he hresp h200 hput
        obtain ⟨hu, hb, hk⟩ : url = url' ∧ bucket = bucket' ∧ key = key' := by
          simpa [UploadEnv.mk.injEq] using he
        obtain rfl : resp = resp' := by simpa using hresp
        obtain rfl : pErr = e' := by simpa using hput
        subst hu hb hk
        simp [uploadHandler, hrt, hs]
  · refine ⟨Or.inr (by simp [uploadHandler, hrt, hs]), ?_,
      by simp, by simp, by simp, ?_, ?_, ?_,
      fun _ => by simp [uploadHandler, hrt, hs]⟩
    · intro url' bucket' key' resp' he hresp h200
      obtain rfl : resp = resp' := by simpa using hresp
      exact absurd h200 hs
    · intro url' bucket' key' e' he hresp
      simp at hresp
    · intro url' bucket' key' resp' he hresp h200
      obtain ⟨hu, hb, hk⟩ : url = url' ∧ bucket = bucket' ∧ key = key' := by
        simpa [UploadEnv.mk.injEq] using he
      obtain rfl : resp = resp' := by simpa using hresp
      subst hu hb hk
      simp [uploadHandler, hrt, hs]
    · intro url' bucket' key' resp' e' he hresp h200
      obtain rfl : resp = resp' := by simpa using hresp
      exact absurd h200 hs

/-- Witness for C4 at a concrete Create invocation whose download and
upload both succeed. -/
theorem C4_uploadHandler_nondelete_witness :
    (some "Create" : Option String) ≠ some "Delete" ∧
    uploadHandler { RequestType := some "Create" }
      { DATASET_URL := some "https://example.com/iris.csv",
        BUCKET_NAME := some "iris-bucket", DATASET_KEY := some "iris/iris.csv" }
      { urlopenResult := .ok { status := 200, content := [1, 2, 3] },
        putObjectErr := none } =
      ({ Status := "SUCCESS", PhysicalResourceId := some "iris/iris.csv",
         Reason := none,
         DataMessage := some "Dataset uploaded to s3://iris-bucket/iris/iris.csv" },
       [UploadCall.urlopen "https://example.com/iris.csv",
        UploadCall.putObject "iris-bucket" "iris/iris.csv" [1, 2, 3] "text/csv"]) := by
  have h := C4_uploadHandler_nondelete { RequestType := some "Create" }
    { DATASET_URL := some "https://example.com/iris.csv",
      BUCKET_NAME := some "iris-bucket", DATASET_KEY := some "iris/iris.csv" }
    { urlopenResult := .ok { status := 200, content := [1, 2, 3] },
      putObjectErr := none } (by simp)
  exact ⟨by simp,
    (h.2.1 "https://example.com/iris.csv" "iris-bucket" "iris/iris.csv"
      { status := 200, content := [1, 2, 3] } rfl rfl rfl rfl).trans (by decide)⟩

/-- C1: with the list call succeeding and a configured role, the deploy
handler's model-package query returns at most one summary; when no
approved package exists it returns 404 with body
`No approved model packages found` having made no create call at all;
when the query returns a package, that package is an approved member of
the group with maximal creation time, and the handler's next call creates
a model from exactly that package. -/
theorem C1_deployHandler_selects_latest_approved
    (groupName endpointName endpointConfigName roleArn : String)
    (o : DeployOracle) (w : DeployWorld)
    (hrole : ¬ roleArn = "") (hlist : o.listErr = none) :
    (listLatestApproved w.registry).length ≤ 1 ∧
    ((w.registry.filter fun p => decide (p.ModelApprovalStatus = "Approved")) = [] →
      deployHandler
        { MODEL_PACKAGE_GROUP_NAME := some groupName,
          ENDPOINT_NAME := some endpointName,
          ENDPOINT_CONFIG_NAME := some endpointConfigName,
          SAGEMAKER_EXECUTION_ROLE_ARN := some roleArn } o w =
      ({ statusCode := 404, body := .str "No approved model packages found" },
       [(SmCall.listModelPackages groupName, w)])) ∧
    (∀ pkg rest, listLatestApproved w.registry = pkg :: rest →
      pkg.ModelApprovalStatus = "Approved" ∧ pkg ∈ w.registry ∧
      (∀ q ∈ w.registry, q.ModelApprovalStatus = "Approved" →
        q.CreationTime ≤ pkg.CreationTime) ∧
      ∃ tr, (deployHandler
          { MODEL_PACKAGE_GROUP_NAME := some groupName,
            ENDPOINT_NAME := some endpointName,
            ENDPOINT_CONFIG_NAME := some endpointConfigName,
            SAGEMAKER_EXECUTION_ROLE_ARN := some roleArn } o w).2 =
        (SmCall.listModelPackages groupName, w) ::
        (SmCall.createModel ("iris-model-" ++ toString o.timestamp)
          pkg.ModelPackageArn roleArn, w) :: tr) := by
  refine ⟨?_, ?_, ?_⟩
  · rw [listLatestApproved]
    exact List.length_take_le 1 _
  · intro h
    have hA : listLatestApproved w.registry = [] := by
      rw [listLatestApproved, h]
      rfl
    simp [deployHandler, hlist, hA]
  · intro pkg rest hsel
    obtain ⟨happ, hmem, hmax⟩ := listLatestApproved_max hsel
    refine ⟨happ, hmem, hmax, ?_⟩
    simp only [deployHandler, resolveRole, hlist, hsel, if_neg hrole]
    rcases hcm : o.createModelErr with - | e
    · rcases hcl : cleanup_existing_resources o endpointName endpointConfigName w
        with ⟨res, trC⟩
      rcases res with e' | w1
      · exact ⟨trC, by simp [hcl]⟩
      · rcases hcc : o.createConfigErr with - | e2
        · rcases hce : o.createEndpointErr with - | e3
          · exact ⟨trC ++
              [(SmCall.createEndpointConfig endpointConfigName
                  ("iris-model-" ++ toString o.timestamp), w1),
               (SmCall.createEndpoint endpointName endpointConfigName,
                  { w1 with endpointConfigExists := true })], by simp [hcl, hcc, hce]⟩
          · exact ⟨trC ++
              [(SmCall.createEndpointConfig endpointConfigName
                  ("iris-model-" ++ toString o.timestamp), w1),
               (SmCall.createEndpoint endpointName endpointConfigName,
                  { w1 with endpointConfigExists := true })], by simp [hcl, hcc, hce]⟩
        · exact ⟨trC ++
            [(SmCall.createEndpointConfig endpointConfigName
                ("iris-model-" ++ toString o.timestamp), w1)], by simp [hcl, hcc]⟩
    · exact ⟨[], by simp [hcm]⟩

/-- Witness for C1: at the sample registry (approved packages created at
times 10 and 20, a pending one at 30) the query returns the approved
package created at 20 and the handler's second call creates a model from
it. -/
theorem C1_deployHandler_witness :
    ((deployHandler
        { MODEL_PACKAGE_GROUP_NAME := some "IrisModelPackageGroup",
          ENDPOINT_NAME := some "iris-classification-endpoint",
          ENDPOINT_CONFIG_NAME := some "iris-classification-config",
          SAGEMAKER_EXECUTION_ROLE_ARN := some "arn:aws:iam::123456789012:role/exec" }
        sampleDeployOracle sampleDeployWorld).2).take 2 =
      [(SmCall.listModelPackages "IrisModelPackageGroup", sampleDeployWorld),
       (SmCall.createModel "iris-model-1700000000" "arn:pkg/3"
          "arn:aws:iam::123456789012:role/exec", sampleDeployWorld)] ∧
    ({ ModelPackageArn := "arn:pkg/3", ModelApprovalStatus := "Approved",
       CreationTime := 20 } : ModelPackage) ∈ sampleDeployWorld.registry := by
  have h := (C1_deployHandler_selects_latest_approved "IrisModelPackageGroup"
      "iris-classification-endpoint" "iris-classification-config"
      "arn:aws:iam::123456789012:role/exec" sampleDeployOracle sampleDeployWorld
      (by decide) rfl).2.2
      { ModelPackageArn := "arn:pkg/3", ModelApprovalStatus := "Approved",
        CreationTime := 20 }
      [] (by rfl)
  obtain ⟨-, hmem, -, tr, htr⟩ := h
  exact ⟨by rw [htr]; rfl, hmem⟩

/-- Case analysis of the deploy handler after the list query returned a
package and the execution role resolved: the result is 202 or 500, and it
is 202 with the announced body exactly when model creation, cleanup,
config creation and endpoint creation all succeeded. -/
theorem deployHandler202Aux (g en ecn : String) (rOpt : Option String)
    (o : DeployOracle) (w : DeployWorld) (pkg : ModelPackage)
    (rest : List ModelPackage) (roleArn : String)
    (hlist : o.listErr = none)
    (hA : listLatestApproved w.registry = pkg :: rest)
    (hro : resolveRole rOpt o = .ok roleArn) :
    ((deployHandler
        { MODEL_PACKAGE_GROUP_NAME := some g, ENDPOINT_NAME := some en,
          ENDPOINT_CONFIG_NAME := some ecn,
          SAGEMAKER_EXECUTION_ROLE_ARN := rOpt } o w).1.statusCode = 202 ∨
     (deployHandler
        { MODEL_PACKAGE_GROUP_NAME := some g, ENDPOINT_NAME := some en,
          ENDPOINT_CONFIG_NAME := some ecn,
          SAGEMAKER_EXECUTION_ROLE_ARN := rOpt } o w).1.statusCode = 404 ∨
     (deployHandler
        { MODEL_PACKAGE_GROUP_NAME := some g, ENDPOINT_NAME := some en,
          ENDPOINT_CONFIG_NAME := some ecn,
          SAGEMAKER_EXECUTION_ROLE_ARN := rOpt } o w).1.statusCode = 500) ∧
    ((deployHandler
        { MODEL_PACKAGE_GROUP_NAME := some g, ENDPOINT_NAME := some en,
          ENDPOINT_CONFIG_NAME := some ecn,
          SAGEMAKER_EXECUTION_ROLE_ARN := rOpt } o w).1.statusCode = 202 →
      ∃ w1 trC,
        o.createModelErr = none ∧
        cleanup_existing_resources o en ecn w = (Except.ok w1, trC) ∧
        o.createConfigErr = none ∧ o.createEndpointErr = none ∧
        (deployHandler
          { MODEL_PACKAGE_GROUP_NAME := some g, ENDPOINT_NAME := some en,
            ENDPOINT_CONFIG_NAME := some ecn,
            SAGEMAKER_EXECUTION_ROLE_ARN := rOpt } o w).1.body = JBody.obj [
          ("message", "Endpoint creation initiated successfully"),
          ("status", "Creating"),
          ("endpointName", en),
          ("endpointArn", o.endpointArn),
          ("estimatedReadyTime", "10-15 minutes")]) := by
  rcases hcm : o.createModelErr with - | e
  · rcases hcl : cleanup_existing_resources o en ecn w with ⟨res, trC⟩
    rcases res with e1 | w1
    · refine ⟨Or.inr (Or.inr
        (by simp [deployHandler, hlist, hA, hro, hcm, hcl, err500])), ?_⟩
      intro h202
      simp [deployHandler, hlist, hA, hro, hcm, hcl, err500] at h202
    · rcases hcc : o.createConfigErr with - | e2
      · rcases hce : o.createEndpointErr with - | e3
        · refine ⟨Or.inl
            (by simp [deployHandler, hlist, hA, hro, hcm, hcl, hcc, hce]), ?_⟩
          intro h202
          exact ⟨w1, trC, rfl, rfl, rfl, rfl,
            by simp [deployHandler, hlist, hA, hro, hcm, hcl, hcc, hce]⟩
        · refine ⟨Or.inr (Or.inr
            (by simp [deployHandler, hlist, hA, hro, hcm, hcl, hcc, hce, err500])), ?_⟩
          intro h202
          simp [deployHandler, hlist, hA, hro, hcm, hcl, hcc, hce, err500] at h202
      · refine ⟨Or.inr (Or.inr
          (by simp [deployHandler, hlist, hA, hro, hcm, hcl, hcc, err500])), ?_⟩
        intro h202
        simp [deployHandler, hlist, hA, hro, hcm, hcl, hcc, err500] at h202
  · refine ⟨Or.inr (Or.inr
      (by simp [deployHandler, hlist, hA, hro, hcm, err500])), ?_⟩
    intro h202
    simp [deployHandler, hlist, hA, hro, hcm, err500] at h202

/-- C8: for every environment, every world and every behaviour of the
external service the deploy handler returns a dict (never propagates an
exception) whose statusCode is 202, 404 or 500; 202 arises only when the
model creation, the cleanup of pre-existing resources, the endpoint-config
creation and the endpoint creation all succeeded, and then the body names
the endpoint and its ARN with status `Creating`. -/
theorem C8_deployHandler_status (env : DeployEnv) (o : DeployOracle) (w : DeployWorld) :
    ((deployHandler env o w).1.statusCode = 202 ∨
     (deployHandler env o w).1.statusCode = 404 ∨
     (deployHandler env o w).1.statusCode = 500) ∧
    ((deployHandler env o w).1.statusCode = 202 →
      ∃ en ecn w1 trC,
        env.ENDPOINT_NAME = some en ∧ env.ENDPOINT_CONFIG_NAME = some ecn ∧
        o.listErr = none ∧ o.createModelErr = none ∧
        cleanup_existing_resources o en ecn w = (Except.ok w1, trC) ∧
        o.createConfigErr = none ∧ o.createEndpointErr = none ∧
        (deployHandler env o w).1.body = JBody.obj [
          ("message", "Endpoint creation initiated successfully"),
          ("status", "Creating"),
          ("endpointName", en),
          ("endpointArn", o.endpointArn),
          ("estimatedReadyTime", "10-15 minutes")]) := by
  obtain ⟨g, en, ecn, r⟩ := env
  rcases g with - | g
  · exact ⟨Or.inr (Or.inr (by simp [deployHandler, err500])),
      fun h => by simp [deployHandler, err500] at h⟩
  rcases en with - | en
  · exact ⟨Or.inr (Or.inr (by simp [deployHandler, err500])),
      fun h => by simp [deployHandler, err500] at h⟩
  rcases ecn with - | ecn
  · exact ⟨Or.inr (Or.inr (by simp [deployHandler, err500])),
      fun h => by simp [deployHandler, err500] at h⟩
  rcases hlist : o.listErr with - | e
  · rcases hA : listLatestApproved w.registry with - | ⟨pkg, rest⟩
    · exact ⟨Or.inr (Or.inl (by simp [deployHandler, hlist, hA])),
        fun h => by simp [deployHandler, hlist, hA] at h⟩
    · rcases hro : resolveRole r o with e | roleArn
      · exact ⟨Or.inr (Or.inr (by simp [deployHandler, hlist, hA, hro, err500])),
          fun h => by simp [deployHandler, hlist, hA, hro, err500] at h⟩
      · have h := deployHandler202Aux g en ecn r o w pkg rest roleArn hlist hA hro
        refine ⟨h.1, fun h202 => ?_⟩
        obtain ⟨w1, trC, hcm, hcl, hcc, hce, hbody⟩ := h.2 h202
        exact ⟨en, ecn, w1, trC, rfl, rfl, rfl, hcm, hcl, hcc, hce, hbody⟩
  · exact ⟨Or.inr (Or.inr (by simp [deployHandler, hlist, err500])),
      fun h => by simp [deployHandler, hlist, err500] at h⟩

/-- Witness for C8: a fault-free run over the sample world returns 202
and announces the endpoint, its ARN and status `Creating`. -/
theorem C8_deployHandler_status_witness :
    (deployHandler
        (deploy_lambda_environment "arn:aws:iam::123456789012:role/exec")
        sampleDeployOracle sampleDeployWorld).1.statusCode = 202 ∧
    (deployHandler
        (deploy_lambda_environment "arn:aws:iam::123456789012:role/exec")
        sampleDeployOracle sampleDeployWorld).1.body = JBody.obj [
      ("message", "Endpoint creation initiated successfully"),
      ("status", "Creating"),
      ("endpointName", "iris-classification-endpoint"),
      ("endpointArn", "arn:aws:sagemaker:ep/iris"),
      ("estimatedReadyTime", "10-15 minutes")] := by
  have h := C8_deployHandler_status
    (deploy_lambda_environment "arn:aws:iam::123456789012:role/exec")
    sampleDeployOracle sampleDeployWorld
  have h202 : (deployHandler
      (deploy_lambda_environment "arn:aws:iam::123456789012:role/exec")
      sampleDeployOracle sampleDeployWorld).1.statusCode = 202 := rfl
  obtain ⟨en, ecn, w1, trC, hen, -, -, -, -, -, -, hbody⟩ := h.2 h202
  have hen' : en = "iris-classification-endpoint" := by
    simpa [deploy_lambda_environment] using hen.symm
  rw [hen'] at hbody
  exact ⟨h202, by simpa [sampleDeployOracle] using hbody⟩

/-- Every call recorded by the endpoint-cleanup block is a describe,
delete or wait on the endpoint name. -/
theorem cleanupEndpointBlock_calls (o : DeployOracle) (en : String)
    (w : DeployWorld) (c : SmCall) (wAt : DeployWorld)
    (hmem : (c, wAt) ∈ (cleanupEndpointBlock o en w).2) :
    c = SmCall.describeEndpoint en ∨ c = SmCall.deleteEndpoint en ∨
    c = SmCall.waitEndpointDeleted en := by
  simp only [cleanupEndpointBlock] at hmem
  rcases hd : o.describeEndpointErr with - | e <;> simp only [hd] at hmem
  · by_cases hst : w.endpointStatus = EndpointStatus.absent <;>
      simp only [hst, if_pos, if_neg, reduceIte] at hmem
    · simp at hmem
      tauto
    · rcases hdel : o.deleteEndpointErr with - | e <;> simp only [hdel] at hmem
      · rcases hw : o.waiterErr with - | e <;> simp only [hw] at hmem <;>
          simp at hmem <;> tauto
      · simp at hmem
        tauto
  · simp at hmem
    tauto

/-- Every call recorded by the config-cleanup block is a describe or
delete on the endpoint-config name. -/
theorem cleanupConfigBlock_calls (o : DeployOracle) (ecn : String)
    (w : DeployWorld) (c : SmCall) (wAt : DeployWorld)
    (hmem : (c, wAt) ∈ (cleanupConfigBlock o ecn w).2) :
    c = SmCall.describeEndpointConfig ecn ∨ c = SmCall.deleteEndpointConfig ecn := by
  simp only [cleanupConfigBlock] at hmem
  rcases hd : o.describeConfigErr with - | e <;> simp only [hd] at hmem
  · by_cases hce : w.endpointConfigExists <;>
      simp only [hce, if_pos, if_neg, reduceIte] at hmem
    · rcases hdel : o.deleteConfigErr with - | e <;> simp only [hdel] at hmem <;>
        simp at hmem <;> tauto
    · simp at hmem
      tauto
  · simp at hmem
    tauto

/-- Every call recorded by `cleanup_existing_resources` is a describe,
delete or wait — never a create. -/
theorem cleanup_calls (o : DeployOracle) (en ecn : String) (w : DeployWorld)
    (c : SmCall) (wAt : DeployWorld)
    (hmem : (c, wAt) ∈ (cleanup_existing_resources o en ecn w).2) :
    c = SmCall.describeEndpoint en ∨ c = SmCall.deleteEndpoint en ∨
    c = SmCall.waitEndpointDeleted en ∨
    c = SmCall.describeEndpointConfig ecn ∨ c = SmCall.deleteEndpointConfig ecn := by
  simp only [cleanup_existing_resources] at hmem
  rcases hep : cleanupEndpointBlock o en w with ⟨resE, trE⟩
  rcases resE with e | w1 <;> simp only [hep] at hmem
  · have := cleanupEndpointBlock_calls o en w c wAt (by rw [hep]; exact hmem)
    tauto
  · rcases hcfg : cleanupConfigBlock o ecn w1 with ⟨resC, trCfg⟩
    simp only [hcfg] at hmem
    rcases List.mem_append.mp hmem with hmem' | hmem'
    · have := cleanupEndpointBlock_calls o en w c wAt (by rw [hep]; exact hmem')
      tauto
    · have := cleanupConfigBlock_calls o ecn w1 c wAt (by rw [hcfg]; exact hmem')
      tauto

/-- With no fault injected on the cleanup calls, the endpoint block ends
with the endpoint absent and everything else unchanged. -/
theorem cleanupEndpointBlock_fault_free (o : DeployOracle) (en : String)
    (w : DeployWorld)
    (h1 : o.describeEndpointErr = none) (h2 : o.deleteEndpointErr = none)
    (h3 : o.waiterErr = none) :
    (cleanupEndpointBlock o en w).1 =
      .ok { registry := w.registry, endpointStatus := EndpointStatus.absent,
            endpointConfigExists := w.endpointConfigExists } := by
  obtain ⟨reg, es, ce⟩ := w
  rcases es with - | - | - <;>
    simp [cleanupEndpointBlock, h1, h2, h3]

/-- With no fault injected on the cleanup calls, the config block ends
with the endpoint config absent and everything else unchanged. -/
theorem cleanupConfigBlock_fault_free (o : DeployOracle) (ecn : String)
    (w : DeployWorld)
    (h4 : o.describeConfigErr = none) (h5 : o.deleteConfigErr = none) :
    (cleanupConfigBlock o ecn w).1 =
      .ok { registry := w.registry, endpointStatus := w.endpointStatus,
            endpointConfigExists := false } := by
  obtain ⟨reg, es, ce⟩ := w
  rcases ce with - | - <;>
    simp [cleanupConfigBlock, h4, h5]

/-- With no fault injected on the cleanup calls,
`cleanup_existing_resources` succeeds and leaves neither an endpoint nor an
endpoint config. -/
theorem cleanup_fault_free (o : DeployOracle) (en ecn : String) (w : DeployWorld)
    (h1 : o.describeEndpointErr = none) (h2 : o.deleteEndpointErr = none)
    (h3 : o.waiterErr = none) (h4 : o.describeConfigErr = none)
    (h5 : o.deleteConfigErr = none) :
    (cleanup_existing_resources o en ecn w).1 =
      .ok { registry := w.registry, endpointStatus := EndpointStatus.absent,
            endpointConfigExists := false } := by
  have hE := cleanupEndpointBlock_fault_free o en w h1 h2 h3
  rcases hep : cleanupEndpointBlock o en w with ⟨resE, trE⟩
  rw [hep] at hE
  simp only at hE
  subst hE
  have hC := cleanupConfigBlock_fault_free o ecn
    { registry := w.registry, endpointStatus := EndpointStatus.absent,
      endpointConfigExists := w.endpointConfigExists } h4 h5
  rcases hcfg : cleanupConfigBlock o ecn
      { registry := w.registry, endpointStatus := EndpointStatus.absent,
        endpointConfigExists := w.endpointConfigExists } with ⟨resC, trCfg⟩
  rw [hcfg] at hC
  simp only at hC
  subst hC
  simp [cleanup_existing_resources, hep, hcfg]

/-- C9: when the service answers the cleanup calls per its contract (no
fault injected on describe, delete or wait), `create_endpoint_config` is
only ever called in a world where neither the endpoint nor the endpoint
config of an earlier deployment still exists, `create_endpoint` only with
the old endpoint gone, and the cleanup step itself first removes the
endpoint (waiting for deletion) and then the config. -/
theorem C9_cleanup_before_create (env : DeployEnv) (o : DeployOracle)
    (w : DeployWorld)
    (h1 : o.describeEndpointErr = none) (h2 : o.deleteEndpointErr = none)
    (h3 : o.waiterErr = none) (h4 : o.describeConfigErr = none)
    (h5 : o.deleteConfigErr = none) :
    (∀ c wAt, (c, wAt) ∈ (deployHandler env o w).2 →
      (∀ a b, c = SmCall.createEndpointConfig a b →
        wAt.endpointStatus = EndpointStatus.absent ∧
        wAt.endpointConfigExists = false) ∧
      (∀ a b, c = SmCall.createEndpoint a b →
        wAt.endpointStatus = EndpointStatus.absent)) ∧
    (∀ en ecn, (cleanup_existing_resources o en ecn w).1 =
      .ok { registry := w.registry, endpointStatus := EndpointStatus.absent,
            endpointConfigExists := false }) := by
  refine ⟨?_, fun en ecn => cleanup_fault_free o en ecn w h1 h2 h3 h4 h5⟩
  intro c wAt hmem
  obtain ⟨g, en, ecn, r⟩ := env
  rcases g with - | g
  · simp [deployHandler] at hmem
  rcases en with - | en
  · simp [deployHandler] at hmem
  rcases ecn with - | ecn
  · simp [deployHandler] at hmem
  rcases hlist : o.listErr with - | e
  · rcases hA : listLatestApproved w.registry with - | ⟨pkg, rest⟩
    · simp [deployHandler, hlist, hA] at hmem
      obtain ⟨rfl, -⟩ := hmem
      exact ⟨fun a b hc => by simp at hc, fun a b hc => by simp at hc⟩
    · rcases hro : resolveRole r o with e | roleArn
      · simp [deployHandler, hlist, hA, hro] at hmem
        obtain ⟨rfl, -⟩ := hmem
        exact ⟨fun a b hc => by simp at hc, fun a b hc => by simp at hc⟩
      · rcases hcm : o.createModelErr with - | e
        · have hcf := cleanup_fault_free o en ecn w h1 h2 h3 h4 h5
          rcases hcl : cleanup_existing_resources o en ecn w with ⟨resC, trC⟩
          rw [hcl] at hcf
          simp only at hcf
          subst hcf
          have htrC : ∀ c' wAt', (c', wAt') ∈ trC →
              (∀ a b, c' ≠ SmCall.createEndpointConfig a b) ∧
              (∀ a b, c' ≠ SmCall.createEndpoint a b) := by
            intro c' wAt' hm'
            have := cleanup_calls o en ecn w c' wAt' (by rw [hcl]; exact hm')
            rcases this with rfl | rfl | rfl | rfl | rfl <;>
              exact ⟨fun a b hc => by simp at hc, fun a b hc => by simp at hc⟩
          rcases hcc : o.createConfigErr with - | e2
          · rcases hce : o.createEndpointErr with - | e3
            · simp only [deployHandler, hlist, hA, hro, hcm, hcl, hcc, hce,
                List.append_assoc, List.cons_append, List.nil_append,
                List.mem_append, List.mem_cons, List.mem_singleton,
                List.not_mem_nil, or_false] at hmem
              rcases hmem with h' | h' | h' | h' | h'
              · obtain ⟨rfl, -⟩ := Prod.mk.injEq .. ▸ h'
                exact ⟨fun a b hc => by simp at hc, fun a b hc => by simp at hc⟩
              · obtain ⟨rfl, -⟩ := Prod.mk.injEq .. ▸ h'
                exact ⟨fun a b hc => by simp at hc, fun a b hc => by simp at hc⟩
              · exact ⟨fun a b hc => absurd hc ((htrC c wAt h').1 a b),
                  fun a b hc => absurd hc ((htrC c wAt h').2 a b)⟩
              · obtain ⟨rfl, rfl⟩ := Prod.mk.injEq .. ▸ h'
                exact ⟨fun a b hc => ⟨rfl, rfl⟩, fun a b hc => by simp at hc⟩
              · obtain ⟨rfl, rfl⟩ := Prod.mk.injEq .. ▸ h'
                exact ⟨fun a b hc => by simp at hc, fun a b hc => rfl⟩
            · simp only [deployHandler, hlist, hA, hro, hcm, hcl, hcc, hce,
                List.append_assoc, List.cons_append, List.nil_append,
                List.mem_append, List.mem_cons, List.mem_singleton,
                List.not_mem_nil, or_false] at hmem
              rcases hmem with h' | h' | h' | h' | h'
              · obtain ⟨rfl, -⟩ := Prod.mk.injEq .. ▸ h'
                exact ⟨fun a b hc => by simp at hc, fun a b hc => by simp at hc⟩
              · obtain ⟨rfl, -⟩ := Prod.mk.injEq .. ▸ h'
                exact ⟨fun a b hc => by simp at hc, fun a b hc => by simp at hc⟩
              · exact ⟨fun a b hc => absurd hc ((htrC c wAt h').1 a b),
                  fun a b hc => absurd hc ((htrC c wAt h').2 a b)⟩
              · obtain ⟨rfl, rfl⟩ := Prod.mk.injEq .. ▸ h'
                exact ⟨fun a b hc => ⟨rfl, rfl⟩, fun a b hc => by simp at hc⟩
              · obtain ⟨rfl, rfl⟩ := Prod.mk.injEq .. ▸ h'
                exact ⟨fun a b hc => by simp at hc, fun a b hc => rfl⟩
          · simp only [deployHandler, hlist, hA, hro, hcm, hcl, hcc,
              List.append_assoc, List.cons_append, List.nil_append,
              List.mem_append, List.mem_cons, List.mem_singleton,
              List.not_mem_nil, or_false] at hmem
            rcases hmem with h' | h' | h' | h'
            · obtain ⟨rfl, -⟩ := Prod.mk.injEq .. ▸ h'
              exact ⟨fun a b hc => by simp at hc, fun a b hc => by simp at hc⟩
            · obtain ⟨rfl, -⟩ := Prod.mk.injEq .. ▸ h'
              exact ⟨fun a b hc => by simp at hc, fun a b hc => by simp at hc⟩
            · exact ⟨fun a b hc => absurd hc ((htrC c wAt h').1 a b),
                fun a b hc => absurd hc ((htrC c wAt h').2 a b)⟩
            · obtain ⟨rfl, rfl⟩ := Prod.mk.injEq .. ▸ h'
              exact ⟨fun a b hc => ⟨rfl, rfl⟩, fun a b hc => by simp at hc⟩
        · simp [deployHandler, hlist, hA, hro, hcm] at hmem
          rcases hmem with ⟨rfl, -⟩ | ⟨rfl, -⟩ <;>
            exact ⟨fun a b hc => by simp at hc, fun a b hc => by simp at hc⟩
  · simp [deployHandler, hlist] at hmem
    obtain ⟨rfl, -⟩ := hmem
    exact ⟨fun a b hc => by simp at hc, fun a b hc => by simp at hc⟩

/-- Witness for C9 at the sample fault-free oracle and world: the eighth
recorded call of the run is the endpoint-config creation, and the world
right before it has neither the endpoint nor the config left; cleanup
ends clean. -/
theorem C9_cleanup_before_create_witness :
    (((deployHandler
        (deploy_lambda_environment "arn:aws:iam::123456789012:role/exec")
        sampleDeployOracle sampleDeployWorld).2).getD 7 defaultSmEntry).1 =
      SmCall.createEndpointConfig "iris-classification-config"
        "iris-model-1700000000" ∧
    (((deployHandler
        (deploy_lambda_environment "arn:aws:iam::123456789012:role/exec")
        sampleDeployOracle sampleDeployWorld).2).getD 7
          defaultSmEntry).2.endpointStatus = EndpointStatus.absent ∧
    (((deployHandler
        (deploy_lambda_environment "arn:aws:iam::123456789012:role/exec")
        sampleDeployOracle sampleDeployWorld).2).getD 7
          defaultSmEntry).2.endpointConfigExists = false ∧
    (cleanup_existing_resources sampleDeployOracle "iris-classification-endpoint"
        "iris-classification-config" sampleDeployWorld).1 =
      .ok { registry := sampleRegistry, endpointStatus := EndpointStatus.absent,
            endpointConfigExists := false } := by
  have h := C9_cleanup_before_create
    (deploy_lambda_environment "arn:aws:iam::123456789012:role/exec")
    sampleDeployOracle sampleDeployWorld rfl rfl rfl rfl rfl
  have hlen : (7 : Nat) < ((deployHandler
      (deploy_lambda_environment "arn:aws:iam::123456789012:role/exec")
      sampleDeployOracle sampleDeployWorld).2).length := by decide
  have hmem : (((deployHandler
      (deploy_lambda_environment "arn:aws:iam::123456789012:role/exec")
      sampleDeployOracle sampleDeployWorld).2).getD 7 defaultSmEntry) ∈
      (deployHandler
        (deploy_lambda_environment "arn:aws:iam::123456789012:role/exec")
        sampleDeployOracle sampleDeployWorld).2 := by
    rw [List.getD_eq_getElem _ defaultSmEntry hlen]
    exact List.getElem_mem hlen
  have hc := (h.1 _ _ hmem).1 "iris-classification-config"
    "iris-model-1700000000" rfl
  exact ⟨rfl, hc.1, hc.2,
    h.2 "iris-classification-endpoint" "iris-classification-config"⟩

end MpsGroup
